import Mathlib

/-!
Shallow embedding of the Charityplatform repository (TypeScript sources:
schema.ts, storage.ts, the Express route registration file, apply.tsx and
the admin dashboard page), together with theorems settling the frozen
claims about the application-status workflow, the persistence adapter and
the admin dashboard aggregations.

Modelling conventions:
  * Postgres `timestamp` columns are `Nat` (an abstract clock value);
    `decimal` columns are the raw strings the JSON API carries.
  * A nullable column is `Option`.  A field of a JS object that may be
    *absent* (`undefined`) as well as `null` is `Option (Option _)`:
    the outer layer is presence, the inner layer is null vs value.
  * JS truthiness on strings (`""` is falsy) is modelled explicitly where
    the source relies on it (`x || null`, `if (status)`).
  * Fresh row ids (`gen_random_uuid()`) and `new Date()` are passed in as
    explicit parameters.
-/

namespace Charity

/-- The `applications` table row (schema.ts `applications`): nullable
columns are `Option`, timestamps are `Nat`, decimals are strings. -/
structure Application where
  id : String
  userId : String
  bankDetailsId : Option String
  reason : String
  amountRequested : String
  currency : String
  supportingDocuments : Option (List String)
  status : String
  adminNotes : Option String
  reviewedBy : Option String
  reviewedAt : Option Nat
  paidAt : Option Nat
  paidAmount : Option String
  createdAt : Nat
  updatedAt : Nat
deriving DecidableEq

/-- The `bank_details` table row (schema.ts `bankDetails`). -/
structure BankDetails where
  id : String
  userId : String
  country : String
  bankName : String
  accountNumber : String
  sortCode : Option String
  routingNumber : Option String
  accountHolderName : Option String
  isVerified : String
  createdAt : Nat
  updatedAt : Nat
deriving DecidableEq

/-- The database state the storage layer acts on: the two tables the
claims are about. -/
structure DB where
  bankDetails : List BankDetails
  applications : List Application
deriving DecidableEq

def emptyDB : DB := { bankDetails := [], applications := [] }

/-- JS `x || null` on an optional string: `undefined` and the empty
string (falsy) both become null. -/
def jsOrNull : Option String → Option String
  | some s => if s = "" then none else some s
  | none => none

/-- JS truthiness of an optional string: present and non-empty. -/
def jsTruthy : Option String → Bool
  | some s => s ≠ ""
  | none => false

/-- `startsWithList n h` : the list `n` is an initial segment of `h`. -/
def startsWithList : List Char → List Char → Bool
  | [], _ => true
  | _ :: _, [] => false
  | a :: as, b :: bs => a == b && startsWithList as bs

/-- `containsSub n h` : `n` occurs as a contiguous sublist of `h`;
models JS `String.prototype.includes` on the underlying characters. -/
def containsSub (needle : List Char) : List Char → Bool
  | [] => needle.isEmpty
  | h :: t => startsWithList needle (h :: t) || containsSub needle t

/-- JS `s.includes(q)`. -/
def strIncludes (s q : String) : Bool := containsSub q.toList s.toList

/-- The five values of `applicationStatusEnum` (schema.ts line 11),
also the `z.enum` of `updateApplicationSchema` in the routes file. -/
def statusEnum : List String := ["pending", "under_review", "approved", "rejected", "paid"]

/-! ### Server-side zod schemas (routes file lines 105-129) -/

/-- Request body for a bank-details payload, as the server receives it
(`bankDetailsSchema`, routes file lines 105-112). -/
structure RawBankBody where
  country : String
  bankName : String
  accountNumber : String
  sortCode : Option String
  routingNumber : Option String
  accountHolderName : Option String
deriving DecidableEq

/-- Server `bankDetailsSchema` validation: country in the enum,
`bankName` at least 2 chars, `accountNumber` at least 6 chars; the
sortCode / routingNumber / accountHolderName fields are
optional-nullable with NO country-conditional requirement. -/
def bankDetailsSchemaOk (b : RawBankBody) : Bool :=
  (b.country = "UK" || b.country = "USA")
    && decide (b.bankName.length ≥ 2)
    && decide (b.accountNumber.length ≥ 6)

/-- Raw application payload as received by POST /api/applications.  The
`status` field is junk the client might send: `applicationSchema` has no
such key, so the zod object parse strips it. -/
structure RawApplicationBody where
  reason : String
  amountRequested : String
  currency : String
  bankDetailsId : Option String
  status : Option String
deriving DecidableEq

/-- Output of `applicationSchema.parse`: exactly the declared keys. -/
structure ApplicationData where
  reason : String
  amountRequested : String
  currency : String
  bankDetailsId : Option String
deriving DecidableEq

/-- Model of the zod refinement
`!isNaN(parseFloat(val)) && parseFloat(val) > 0`, for decimal literals
without exponent notation (optional sign, digits, optional fractional
part): the parse succeeds iff at least one digit is read, and the value
is positive iff the sign is not minus and some digit is non-zero. -/
def parseFloatPos (s : String) : Bool :=
  let cs := (s.toList).dropWhile (fun c => c = ' ' || c = '\t' || c = '\n')
  let signNeg : Bool := match cs with
    | '-' :: _ => true
    | _ => false
  let cs2 := match cs with
    | '-' :: t => t
    | '+' :: t => t
    | t => t
  let intPart := cs2.takeWhile Char.isDigit
  let rest := cs2.dropWhile Char.isDigit
  let fracPart := match rest with
    | '.' :: t => t.takeWhile Char.isDigit
    | _ => []
  if intPart.isEmpty && fracPart.isEmpty then false
  else !signNeg && (intPart ++ fracPart).any (fun c => c ≠ '0')

/-- `applicationSchema.parse` (routes file lines 114-119): reason at
least 20 chars, a positive numeric amount string, currency GBP or USD,
optional-nullable `bankDetailsId`; any extra key (e.g. `status`) is
stripped. -/
def applicationSchemaParse (b : RawApplicationBody) : Option ApplicationData :=
  if decide (b.reason.length ≥ 20) && parseFloatPos b.amountRequested
      && (b.currency = "GBP" || b.currency = "USD")
  then some { reason := b.reason, amountRequested := b.amountRequested,
              currency := b.currency, bankDetailsId := b.bankDetailsId }
  else none

/-- Request body of POST /api/applications
(`applicationSubmitSchema`, routes file lines 121-124). -/
structure SubmitBody where
  application : RawApplicationBody
  bankDetails : Option RawBankBody
deriving DecidableEq

/-- `applicationSubmitSchema.parse`. -/
def applicationSubmitSchemaParse (b : SubmitBody) :
    Option (ApplicationData × Option RawBankBody) :=
  match applicationSchemaParse b.application, b.bankDetails with
  | some a, none => some (a, none)
  | some a, some bd => if bankDetailsSchemaOk bd then some (a, some bd) else none
  | none, _ => none

/-- Request body of PATCH /api/admin/applications/:id.  `paidAmount` and
`paidAt` are junk fields a caller might send: `updateApplicationSchema`
declares only `status` and `adminNotes`, so the parse strips them. -/
structure RawPatchBody where
  status : Option String
  adminNotes : Option (Option String)
  paidAmount : Option String
  paidAt : Option Nat
deriving DecidableEq

/-- Output of `updateApplicationSchema.parse` (routes file lines
126-129): optional status restricted to the enum, optional-nullable
adminNotes. -/
structure PatchData where
  status : Option String
  adminNotes : Option (Option String)
deriving DecidableEq

def updateApplicationSchemaParse (b : RawPatchBody) : Option PatchData :=
  match b.status with
  | none => some { status := none, adminNotes := b.adminNotes }
  | some s =>
      if statusEnum.contains s
      then some { status := some s, adminNotes := b.adminNotes }
      else none

/-! ### Storage layer (storage.ts `DatabaseStorage`) -/

/-- `getBankDetailsById` (storage.ts lines 87-90): first row matching
the id. -/
def getBankDetailsById (db : DB) (id : String) : Option BankDetails :=
  db.bankDetails.find? (fun b => b.id == id)

/-- `getApplicationById` (storage.ts lines 131-134). -/
def getApplicationById (db : DB) (id : String) : Option Application :=
  db.applications.find? (fun a => a.id == id)

/-- Argument record of `createBankDetails` (storage.ts lines 92-101). -/
structure InsertBank where
  userId : String
  country : String
  bankName : String
  accountNumber : String
  sortCode : Option String
  routingNumber : Option String
  accountHolderName : Option String
deriving DecidableEq

/-- `createBankDetails` (storage.ts lines 92-113): `|| null` on the
optional strings, `isVerified` derived from truthiness of
`accountHolderName`. -/
def createBankDetails (db : DB) (data : InsertBank) (newId : String) (now : Nat) :
    BankDetails × DB :=
  let created : BankDetails :=
    { id := newId, userId := data.userId, country := data.country,
      bankName := data.bankName, accountNumber := data.accountNumber,
      sortCode := jsOrNull data.sortCode,
      routingNumber := jsOrNull data.routingNumber,
      accountHolderName := jsOrNull data.accountHolderName,
      isVerified := if jsTruthy data.accountHolderName then "verified" else "pending",
      createdAt := now, updatedAt := now }
  (created, { db with bankDetails := db.bankDetails ++ [created] })

/-- `deleteBankDetails` (storage.ts lines 115-120): deletes rows whose
id AND userId both match; always reports success. -/
def deleteBankDetails (db : DB) (id userId : String) : DB :=
  { db with bankDetails := db.bankDetails.filter (fun b => !(b.id == id && b.userId == userId)) }

/-- Argument record of `createApplication` (storage.ts lines 161-168). -/
structure InsertApp where
  userId : String
  reason : String
  amountRequested : String
  currency : String
  bankDetailsId : Option String
  supportingDocuments : Option (List String)
deriving DecidableEq

/-- `createApplication` (storage.ts lines 161-179): status is forced to
"pending"; all review/payout columns take their null defaults
(schema.ts lines 44-60). -/
def createApplication (db : DB) (data : InsertApp) (newId : String) (now : Nat) :
    Application × DB :=
  let created : Application :=
    { id := newId, userId := data.userId,
      bankDetailsId := jsOrNull data.bankDetailsId,
      reason := data.reason, amountRequested := data.amountRequested,
      currency := data.currency,
      supportingDocuments := data.supportingDocuments,
      status := "pending", adminNotes := none,
      reviewedBy := none, reviewedAt := none,
      paidAt := none, paidAmount := none,
      createdAt := now, updatedAt := now }
  (created, { db with applications := db.applications ++ [created] })

/-- `Partial<Application>` as accepted by `updateApplication`: outer
`Option` is field presence (`!== undefined`), inner `Option` is null. -/
structure ApplicationUpdate where
  status : Option String := none
  adminNotes : Option (Option String) := none
  reviewedBy : Option (Option String) := none
  reviewedAt : Option (Option Nat) := none
  paidAt : Option (Option Nat) := none
  paidAmount : Option (Option String) := none
deriving DecidableEq

/-- The per-row effect of `updateApplication` (storage.ts lines
181-197): `updatedAt` always refreshed, and exactly the six fields
guarded by `!== undefined` overwritten when present. -/
def applyUpdate (now : Nat) (data : ApplicationUpdate) (a : Application) : Application :=
  { a with
    updatedAt := now,
    status := data.status.getD a.status,
    adminNotes := data.adminNotes.getD a.adminNotes,
    reviewedBy := data.reviewedBy.getD a.reviewedBy,
    reviewedAt := data.reviewedAt.getD a.reviewedAt,
    paidAt := data.paidAt.getD a.paidAt,
    paidAmount := data.paidAmount.getD a.paidAmount }

/-- `updateApplication` (storage.ts lines 181-197): updates the rows
matching the id and returns the (first) updated row. -/
def updateApplication (db : DB) (id : String) (data : ApplicationUpdate) (now : Nat) :
    Option Application × DB :=
  let apps := db.applications.map (fun a => if a.id == id then applyUpdate now data a else a)
  (apps.find? (fun a => a.id == id), { db with applications := apps })

/-! ### HTTP route handlers (routes file `registerRoutes`) -/

/-- The HTTP outcomes the modelled routes can produce.  `okApp` carries
the (possibly undefined) application `res.json` serialises. -/
inductive Response where
  | okApp : Option Application → Response
  | okBank : BankDetails → Response
  | okSuccess : Response
  | badRequest : Response
  | forbidden : Response
  | notFound : Response
deriving DecidableEq

/-- POST /api/bank-details (routes file lines 191-214): validate with
the server `bankDetailsSchema`, then persist unconditionally. -/
def postBankDetails (userId : String) (body : RawBankBody) (newId : String) (now : Nat)
    (db : DB) : Response × DB :=
  if bankDetailsSchemaOk body then
    let res := createBankDetails db
      { userId := userId, country := body.country, bankName := body.bankName,
        accountNumber := body.accountNumber, sortCode := body.sortCode,
        routingNumber := body.routingNumber,
        accountHolderName := body.accountHolderName } newId now
    (.okBank res.1, res.2)
  else (.badRequest, db)

/-- DELETE /api/bank-details/:id (routes file lines 216-236): 404 when
no row has the id, 403 when the first matching row belongs to someone
else, otherwise delete-by-id-and-owner. -/
def deleteBankDetailsRoute (userId id : String) (db : DB) : Response × DB :=
  match getBankDetailsById db id with
  | none => (.notFound, db)
  | some existing =>
      if existing.userId ≠ userId then (.forbidden, db)
      else (.okSuccess, deleteBankDetails db id userId)

/-- The `let bankDetailsId = null; if (bankData) ... else if
(appData.bankDetailsId) ...` block of POST /api/applications (routes
file lines 276-297).  `none` is the early 403 return; otherwise the
resolved (nullable) bankDetailsId together with the state after the
optional bank-details insert. -/
def resolveBankDetailsId (userId : String) (appData : ApplicationData)
    (bankData : Option RawBankBody) (newBankId : String) (now : Nat) (db : DB) :
    Option (Option String × DB) :=
  match bankData with
  | some bd =>
      let res := createBankDetails db
        { userId := userId, country := bd.country, bankName := bd.bankName,
          accountNumber := bd.accountNumber, sortCode := bd.sortCode,
          routingNumber := bd.routingNumber,
          accountHolderName := bd.accountHolderName } newBankId now
      some (some res.1.id, res.2)
  | none =>
      match appData.bankDetailsId with
      | some bid =>
          -- JS `else if (appData.bankDetailsId)`: the empty string is falsy
          if bid = "" then some (none, db)
          else
            match getBankDetailsById db bid with
            | none => none
            | some existing =>
                if existing.userId = userId then some (some bid, db) else none
      | none => some (none, db)

/-- POST /api/applications (routes file lines 271-316). -/
def postApplications (userId : String) (body : SubmitBody) (newBankId newAppId : String)
    (now : Nat) (db : DB) : Response × DB :=
  match applicationSubmitSchemaParse body with
  | none => (.badRequest, db)
  | some (appData, bankData) =>
      match resolveBankDetailsId userId appData bankData newBankId now db with
      | none => (.forbidden, db)
      | some (bankDetailsId, db1) =>
          let res := createApplication db1
            { userId := userId, reason := appData.reason,
              amountRequested := appData.amountRequested,
              currency := appData.currency, bankDetailsId := bankDetailsId,
              supportingDocuments := none } newAppId now
          (.okApp (some res.1), res.2)

/-- The `updateData` object built by PATCH /api/admin/applications/:id
(routes file lines 343-354): reviewer stamp always present, status only
when truthy, adminNotes when defined, payout columns only when the
requested status is "paid" (snapshotting the existing row's
`amountRequested`). -/
def adminUpdateData (adminUserId : String) (now : Nat) (parsed : PatchData)
    (existingApp : Application) : ApplicationUpdate :=
  { status := match parsed.status with
      | some s => if s = "" then none else some s
      | none => none,
    adminNotes := parsed.adminNotes,
    reviewedBy := some (some adminUserId),
    reviewedAt := some (some now),
    paidAt := if parsed.status = some "paid" then some (some now) else none,
    paidAmount := if parsed.status = some "paid"
      then some (some existingApp.amountRequested) else none }

/-- PATCH /api/admin/applications/:id (routes file lines 330-365). -/
def patchAdminApplication (adminUserId id : String) (body : RawPatchBody) (now : Nat)
    (db : DB) : Response × DB :=
  match updateApplicationSchemaParse body with
  | none => (.badRequest, db)
  | some parsed =>
      match getApplicationById db id with
      | none => (.notFound, db)
      | some existingApp =>
          let res := updateApplication db id (adminUpdateData adminUserId now parsed existingApp) now
          (.okApp res.1, res.2)

/-! ### Reachability through the two application-mutating API operations -/

/-- One API operation on application state: creation
(POST /api/applications) or admin update (PATCH
/api/admin/applications/:id), each with its ambient fresh ids and
clock value. -/
inductive Op where
  | createApp (userId : String) (body : SubmitBody) (newBankId newAppId : String) (now : Nat)
  | adminPatch (adminUserId id : String) (body : RawPatchBody) (now : Nat)

def applyOp (db : DB) : Op → DB
  | .createApp u b nb na now => (postApplications u b nb na now db).2
  | .adminPatch adm id b now => (patchAdminApplication adm id b now db).2

/-- The state after a sequence of API operations from the empty state. -/
def runOps (ops : List Op) : DB := ops.foldl applyOp emptyDB

/-! ### Spec-side transition table (spec §4.1) -/

/-- Modelled from the spec: the §4.1 status-transition table, used only
to state the claims that compare the observed endpoint behaviour with
the table.  This definition follows the spec's words, not the code
(the code has no such table). -/
def specAllowedTransition (src dst : String) : Bool :=
  (src = "pending" && dst = "under_review")
    || (src = "pending" && dst = "approved")
    || (src = "under_review" && dst = "approved")
    || (src = "pending" && dst = "rejected")
    || (src = "under_review" && dst = "rejected")
    || (src = "approved" && dst = "paid")

/-! ### Client-side bank-details form validation (apply.tsx lines 55-71) -/

/-- The intake form's bank-details values (apply.tsx
`bankDetailsSchema`): sortCode / routingNumber are optional strings. -/
structure ClientBankForm where
  country : String
  bankName : String
  accountNumber : String
  sortCode : Option String
  routingNumber : Option String
deriving DecidableEq

/-- The base object checks of the client schema. -/
def clientBankBaseOk (f : ClientBankForm) : Bool :=
  (f.country = "UK" || f.country = "USA")
    && decide (f.bankName.length ≥ 2)
    && decide (f.accountNumber.length ≥ 6)

/-- The `.refine` of the client schema: UK needs a truthy sortCode of
length ≥ 6, USA a truthy routingNumber of length ≥ 9. -/
def clientBankRefineOk (f : ClientBankForm) : Bool :=
  if f.country = "UK" then
    match f.sortCode with
    | some s => decide (s ≠ "") && decide (s.length ≥ 6)
    | none => false
  else if f.country = "USA" then
    match f.routingNumber with
    | some r => decide (r ≠ "") && decide (r.length ≥ 9)
    | none => false
  else true

/-- Client `bankDetailsSchema` validation (apply.tsx lines 55-71). -/
def clientBankSchemaOk (f : ClientBankForm) : Bool :=
  clientBankBaseOk f && clientBankRefineOk f

/-! ### Admin dashboard aggregation (admin page) -/

/-- The joined `user` object of `ApplicationWithUser` (admin page). -/
structure AdminUser where
  id : String
  email : String
  firstName : Option String
  lastName : Option String
deriving DecidableEq

/-- One row of the admin dashboard's collection. -/
structure ApplicationWithUser where
  app : Application
  user : Option AdminUser
deriving DecidableEq

/-- JS template-literal stringification of `app.user?.firstName`:
missing user gives "undefined", a null field gives "null". -/
def jsTemplateStr : Option (Option String) → String
  | none => "undefined"
  | some none => "null"
  | some (some s) => s

/-- JS `s.toLowerCase()`, modelled character-wise. -/
def jsToLower (s : String) : String := String.mk (s.toList.map Char.toLower)

/-- The `matchesSearch` disjunction of `Admin.filteredApplications`
(admin page lines 118-121). -/
def matchesSearch (searchQuery : String) (row : ApplicationWithUser) : Bool :=
  strIncludes (jsToLower row.app.reason) (jsToLower searchQuery)
    || (match row.user with
        | some u => strIncludes (jsToLower u.email) (jsToLower searchQuery)
        | none => false)
    || strIncludes
        (jsToLower (jsTemplateStr (row.user.map (fun u => u.firstName)) ++ " "
          ++ jsTemplateStr (row.user.map (fun u => u.lastName))))
        (jsToLower searchQuery)

/-- `Admin.filteredApplications` (admin page lines 117-126). -/
def filteredApplications (searchQuery statusFilter : String)
    (rows : List ApplicationWithUser) : List ApplicationWithUser :=
  rows.filter (fun row =>
    matchesSearch searchQuery row
      && (statusFilter == "all" || row.app.status == statusFilter))

/-- The dashboard `stats` object (admin page lines 128-133). -/
structure AdminStats where
  total : Nat
  pending : Nat
  underReview : Nat
  approved : Nat
deriving DecidableEq

def adminStats (rows : List ApplicationWithUser) : AdminStats :=
  { total := rows.length,
    pending := (rows.filter (fun a => a.app.status == "pending")).length,
    underReview := (rows.filter (fun a => a.app.status == "under_review")).length,
    approved := (rows.filter (fun a =>
      a.app.status == "approved" || a.app.status == "paid")).length }

/-! ### Concrete instances used by counterexamples and witnesses -/

/-- A well-formed application payload (reason of 32 chars, positive
amount, GBP). -/
def sampleAppBody : RawApplicationBody :=
  { reason := "Need help paying rent this month", amountRequested := "100.00",
    currency := "GBP", bankDetailsId := none, status := none }

def sampleSubmit : SubmitBody := { application := sampleAppBody, bankDetails := none }

def patchPaid : RawPatchBody :=
  { status := some "paid", adminNotes := none, paidAmount := none, paidAt := none }

def patchApproved : RawPatchBody :=
  { status := some "approved", adminNotes := none, paidAmount := none, paidAt := none }

/-- Create, mark paid, then write "approved" over a paid application. -/
def C1ops : List Op :=
  [ .createApp "u1" sampleSubmit "b1" "a1" 0,
    .adminPatch "adm" "a1" patchPaid 1,
    .adminPatch "adm" "a1" patchApproved 2 ]

/-- Create, then mark paid. -/
def C1wops : List Op :=
  [ .createApp "u1" sampleSubmit "b1" "a1" 0,
    .adminPatch "adm" "a1" patchPaid 1 ]

/-- The application produced by `C1wops`. -/
def C1paidApp : Application :=
  { id := "a1", userId := "u1", bankDetailsId := none,
    reason := "Need help paying rent this month", amountRequested := "100.00",
    currency := "GBP", supportingDocuments := none, status := "paid",
    adminNotes := none, reviewedBy := some "adm", reviewedAt := some 1,
    paidAt := some 1, paidAmount := some "100.00", createdAt := 0, updatedAt := 1 }

/-- Create, then an adminNotes-only PATCH (no status field). -/
def C2ops : List Op :=
  [ .createApp "u1" sampleSubmit "b1" "a1" 0,
    .adminPatch "adm" "a1"
      { status := none, adminNotes := some (some "reviewed, looks fine"),
        paidAmount := none, paidAt := none } 1 ]

/-- Create, then approve. -/
def C2wops : List Op :=
  [ .createApp "u1" sampleSubmit "b1" "a1" 0,
    .adminPatch "adm" "a1" patchApproved 1 ]

/-- The application produced by `C2wops`. -/
def C2approvedApp : Application :=
  { id := "a1", userId := "u1", bankDetailsId := none,
    reason := "Need help paying rent this month", amountRequested := "100.00",
    currency := "GBP", supportingDocuments := none, status := "approved",
    adminNotes := none, reviewedBy := some "adm", reviewedAt := some 1,
    paidAt := none, paidAmount := none, createdAt := 0, updatedAt := 1 }

/-- An application already in the terminal "paid" state. -/
def C3paidApp : Application :=
  { id := "a1", userId := "u1", bankDetailsId := none,
    reason := "Need help paying rent this month", amountRequested := "100.00",
    currency := "GBP", supportingDocuments := none, status := "paid",
    adminNotes := none, reviewedBy := some "adm", reviewedAt := some 1,
    paidAt := some 1, paidAmount := some "100.00", createdAt := 0, updatedAt := 1 }

def C3db : DB := { bankDetails := [], applications := [C3paidApp] }

/-- A request for the (paid → pending) transition, absent from §4.1. -/
def C3body : RawPatchBody :=
  { status := some "pending", adminNotes := none, paidAmount := none, paidAt := none }

/-- An approved application with amountRequested 250.00 GBP (the spec's
§8 example). -/
def C4app : Application :=
  { id := "a1", userId := "u1", bankDetailsId := none,
    reason := "Need help paying rent this month", amountRequested := "250.00",
    currency := "GBP", supportingDocuments := none, status := "approved",
    adminNotes := none, reviewedBy := some "adm", reviewedAt := some 1,
    paidAt := none, paidAmount := none, createdAt := 0, updatedAt := 1 }

def C4db : DB := { bankDetails := [], applications := [C4app] }

/-- A paid-request body also smuggling a different paidAmount, which
the schema parse strips. -/
def C4body : RawPatchBody :=
  { status := some "paid", adminNotes := none, paidAmount := some "999.99",
    paidAt := none }

/-- A creation request smuggling `status: "approved"` in the
application payload. -/
def C5body : SubmitBody :=
  { application :=
      { reason := "Need help paying rent this month", amountRequested := "100.00",
        currency := "GBP", bankDetailsId := none, status := some "approved" },
    bankDetails := none }

/-- The application created from `C5body`. -/
def C5app : Application :=
  { id := "a1", userId := "u1", bankDetailsId := none,
    reason := "Need help paying rent this month", amountRequested := "100.00",
    currency := "GBP", supportingDocuments := none, status := "pending",
    adminNotes := none, reviewedBy := none, reviewedAt := none,
    paidAt := none, paidAmount := none, createdAt := 0, updatedAt := 0 }

/-- A UK bank-details payload with no sortCode at all. -/
def C6body : RawBankBody :=
  { country := "UK", bankName := "Barclays", accountNumber := "12345678",
    sortCode := none, routingNumber := none, accountHolderName := none }

/-- A bank-details row owned by user "A". -/
def C7bd : BankDetails :=
  { id := "bd1", userId := "A", country := "UK", bankName := "Barclays",
    accountNumber := "12345678", sortCode := some "123456", routingNumber := none,
    accountHolderName := none, isVerified := "pending", createdAt := 0, updatedAt := 0 }

def C7db : DB := { bankDetails := [C7bd], applications := [] }

/-- A bank-details row owned by user "other". -/
def C10bd : BankDetails :=
  { id := "bd9", userId := "other", country := "UK", bankName := "Barclays",
    accountNumber := "12345678", sortCode := some "123456", routingNumber := none,
    accountHolderName := none, isVerified := "pending", createdAt := 0, updatedAt := 0 }

def C10db : DB := { bankDetails := [C10bd], applications := [] }

/-- The parsed application data referencing `C10bd` by id. -/
def C10appData : ApplicationData :=
  { reason := "Need help paying rent this month", amountRequested := "100.00",
    currency := "GBP", bankDetailsId := some "bd9" }

/-- A creation request referencing bank details the caller does not
own, with no new bank-details payload. -/
def C10body : SubmitBody :=
  { application :=
      { reason := "Need help paying rent this month", amountRequested := "100.00",
        currency := "GBP", bankDetailsId := some "bd9", status := none },
    bankDetails := none }

/-! ## Helper lemmas -/

theorem applyUpdate_id (now : Nat) (d : ApplicationUpdate) (a : Application) :
    (applyUpdate now d a).id = a.id := rfl

theorem find?_map_applyUpdate (l : List Application) (id : String) (now : Nat)
    (d : ApplicationUpdate) :
    (l.map (fun a => if a.id == id then applyUpdate now d a else a)).find?
        (fun a => a.id == id)
      = (l.find? (fun a => a.id == id)).map (applyUpdate now d) := by
  induction l with
  | nil => rfl
  | cons h t ih =>
      by_cases hh : (h.id == id) = true
      · have hid : ((applyUpdate now d h).id == id) = true := by
          rw [applyUpdate_id]; exact hh
        rw [List.map_cons, if_pos hh,
          List.find?_cons_of_pos (p := fun a : Application => a.id == id) _ hid,
          List.find?_cons_of_pos (p := fun a : Application => a.id == id) _ hh,
          Option.map_some']
      · rw [List.map_cons, if_neg hh,
          List.find?_cons_of_neg (p := fun a : Application => a.id == id) _ hh,
          List.find?_cons_of_neg (p := fun a : Application => a.id == id) _ hh, ih]

/-- The row `updateApplication` returns is the found row passed through
`applyUpdate`. -/
theorem updateApplication_fst (db : DB) (id : String) (d : ApplicationUpdate) (now : Nat) :
    (updateApplication db id d now).1
      = (getApplicationById db id).map (applyUpdate now d) := by
  unfold updateApplication getApplicationById
  exact find?_map_applyUpdate db.applications id now d

/-- Resolving the bank-details reference never touches the
`applications` table. -/
theorem resolveBank_apps (u : String) (ad : ApplicationData) (bd : Option RawBankBody)
    (nb : String) (now : Nat) (db : DB) (x : Option String) (db1 : DB)
    (h : resolveBankDetailsId u ad bd nb now db = some (x, db1)) :
    db1.applications = db.applications := by
  unfold resolveBankDetailsId at h
  split at h
  · simp only [createBankDetails, Option.some.injEq, Prod.mk.injEq] at h
    obtain ⟨-, rfl⟩ := h
    rfl
  · split at h
    · split at h
      · simp only [Option.some.injEq, Prod.mk.injEq] at h
        obtain ⟨-, rfl⟩ := h
        rfl
      · split at h
        · exact absurd h (by simp)
        · split at h
          · simp only [Option.some.injEq, Prod.mk.injEq] at h
            obtain ⟨-, rfl⟩ := h
            rfl
          · exact absurd h (by simp)
    · simp only [Option.some.injEq, Prod.mk.injEq] at h
      obtain ⟨-, rfl⟩ := h
      rfl

/-- POST /api/applications either leaves the applications table alone
or appends exactly one row built by `createApplication`. -/
theorem postApplications_apps_eq (u : String) (body : SubmitBody) (nb na : String)
    (now : Nat) (db : DB) :
    (postApplications u body nb na now db).2.applications = db.applications ∨
    ∃ d : InsertApp, (postApplications u body nb na now db).2.applications
        = db.applications ++ [(createApplication db d na now).1] := by
  rcases hp : applicationSubmitSchemaParse body with _ | ⟨appData, bankData⟩
  · left; unfold postApplications; simp only [hp]
  · rcases hr : resolveBankDetailsId u appData bankData nb now db with _ | ⟨x, db1⟩
    · left; unfold postApplications; simp only [hp, hr]
    · right
      refine ⟨({ userId := u, reason := appData.reason,
                 amountRequested := appData.amountRequested, currency := appData.currency,
                 bankDetailsId := x, supportingDocuments := none } : InsertApp), ?_⟩
      unfold postApplications
      simp only [hp, hr, createApplication]
      rw [resolveBank_apps u appData bankData nb now db x db1 hr]

/-- Every application present after a POST /api/applications was
already there or is a fresh pending row with null review/payout
columns. -/
theorem postApplications_mem (u : String) (body : SubmitBody) (nb na : String)
    (now : Nat) (db : DB) :
    ∀ a ∈ (postApplications u body nb na now db).2.applications,
      a ∈ db.applications ∨
        (a.status = "pending" ∧ a.paidAt = none ∧ a.paidAmount = none ∧
          a.reviewedBy = none ∧ a.reviewedAt = none) := by
  intro a ha
  rcases postApplications_apps_eq u body nb na now db with he | ⟨d, he⟩
  · rw [he] at ha; exact Or.inl ha
  · rw [he] at ha
    rcases List.mem_append.mp ha with h1 | h1
    · exact Or.inl h1
    · right
      have h2 : a = (createApplication db d na now).1 := List.mem_singleton.mp h1
      subst h2
      exact ⟨rfl, rfl, rfl, rfl, rfl⟩

/-- PATCH /api/admin/applications/:id either leaves the applications
table alone or maps the rows matching the id through `applyUpdate` with
the route-built update record. -/
theorem patchAdminApplication_apps_eq (adm id : String) (body : RawPatchBody) (now : Nat)
    (db : DB) :
    (patchAdminApplication adm id body now db).2.applications = db.applications ∨
    ∃ parsed ex, updateApplicationSchemaParse body = some parsed ∧
      getApplicationById db id = some ex ∧
      (patchAdminApplication adm id body now db).2.applications
        = db.applications.map (fun a =>
            if a.id == id then applyUpdate now (adminUpdateData adm now parsed ex) a
            else a) := by
  rcases hp : updateApplicationSchemaParse body with _ | parsed
  · left; unfold patchAdminApplication; simp only [hp]
  · rcases hg : getApplicationById db id with _ | ex
    · left; unfold patchAdminApplication; simp only [hp, hg]
    · refine Or.inr ⟨parsed, ex, rfl, rfl, ?_⟩
      unfold patchAdminApplication
      simp only [hp, hg, updateApplication]

/-- `applyUpdate` with the route-built update record preserves
"paid implies payout columns set". -/
theorem adminUpdate_PaidInv (adm : String) (now : Nat) (parsed : PatchData)
    (ex b : Application)
    (hb : b.status = "paid" → b.paidAt.isSome ∧ b.paidAmount.isSome) :
    (applyUpdate now (adminUpdateData adm now parsed ex) b).status = "paid" →
      (applyUpdate now (adminUpdateData adm now parsed ex) b).paidAt.isSome ∧
        (applyUpdate now (adminUpdateData adm now parsed ex) b).paidAmount.isSome := by
  rcases hps : parsed.status with _ | s
  · simpa [applyUpdate, adminUpdateData, hps] using hb
  · by_cases hpaid : s = "paid"
    · subst hpaid
      simp [applyUpdate, adminUpdateData, hps]
    · by_cases hemp : s = ""
      · subst hemp
        simpa [applyUpdate, adminUpdateData, hps, hpaid] using hb
      · intro hst
        simp [applyUpdate, adminUpdateData, hps, hemp, hpaid] at hst

/-- Every admin update stamps the reviewer columns. -/
theorem adminUpdate_reviewStamped (adm : String) (now : Nat) (parsed : PatchData)
    (ex b : Application) :
    (applyUpdate now (adminUpdateData adm now parsed ex) b).reviewedBy = some adm ∧
      (applyUpdate now (adminUpdateData adm now parsed ex) b).reviewedAt = some now := by
  simp [applyUpdate, adminUpdateData]

theorem step_PaidInv (db : DB) (op : Op)
    (h : ∀ a ∈ db.applications, a.status = "paid" → a.paidAt.isSome ∧ a.paidAmount.isSome) :
    ∀ a ∈ (applyOp db op).applications,
      a.status = "paid" → a.paidAt.isSome ∧ a.paidAmount.isSome := by
  intro a ha
  cases op with
  | createApp u b nb na now =>
      rcases postApplications_mem u b nb na now db a ha with h1 | h1
      · exact h a h1
      · intro hst
        rw [h1.1] at hst
        exact absurd hst (by decide)
  | adminPatch adm id b now =>
      simp only [applyOp] at ha
      rcases patchAdminApplication_apps_eq adm id b now db with he | ⟨parsed, ex, hp, hg, he⟩
      · rw [he] at ha; exact h a ha
      · rw [he] at ha
        rcases List.mem_map.mp ha with ⟨b0, hb0, hab⟩
        by_cases hid : (b0.id == id) = true
        · rw [if_pos hid] at hab
          subst hab
          exact adminUpdate_PaidInv adm now parsed ex b0 (h b0 hb0)
        · rw [if_neg hid] at hab
          subst hab
          exact h b0 hb0

theorem step_ReviewInv (db : DB) (op : Op)
    (h : ∀ a ∈ db.applications,
      a.status ≠ "pending" → a.reviewedBy.isSome ∧ a.reviewedAt.isSome) :
    ∀ a ∈ (applyOp db op).applications,
      a.status ≠ "pending" → a.reviewedBy.isSome ∧ a.reviewedAt.isSome := by
  intro a ha
  cases op with
  | createApp u b nb na now =>
      rcases postApplications_mem u b nb na now db a ha with h1 | h1
      · exact h a h1
      · intro hst
        exact absurd h1.1 hst
  | adminPatch adm id b now =>
      simp only [applyOp] at ha
      rcases patchAdminApplication_apps_eq adm id b now db with he | ⟨parsed, ex, hp, hg, he⟩
      · rw [he] at ha; exact h a ha
      · rw [he] at ha
        rcases List.mem_map.mp ha with ⟨b0, hb0, hab⟩
        by_cases hid : (b0.id == id) = true
        · rw [if_pos hid] at hab
          subst hab
          intro _
          have hst := adminUpdate_reviewStamped adm now parsed ex b0
          exact ⟨by rw [hst.1]; rfl, by rw [hst.2]; rfl⟩
        · rw [if_neg hid] at hab
          subst hab
          exact h b0 hb0

theorem foldl_inv (P : Application → Prop)
    (hstep : ∀ db op, (∀ a ∈ db.applications, P a) →
      ∀ a ∈ (applyOp db op).applications, P a)
    (ops : List Op) :
    ∀ db, (∀ a ∈ db.applications, P a) →
      ∀ a ∈ (ops.foldl applyOp db).applications, P a := by
  induction ops with
  | nil => intro db h; simpa using h
  | cons o t ih => intro db h; exact ih _ (hstep db o h)

/-- The response of a successful admin PATCH carries the found row
passed through `applyUpdate` with the route-built update record. -/
theorem patchAdminApplication_fst (adm id : String) (body : RawPatchBody) (now : Nat)
    (db : DB) (parsed : PatchData) (ex : Application)
    (hp : updateApplicationSchemaParse body = some parsed)
    (hg : getApplicationById db id = some ex) :
    (patchAdminApplication adm id body now db).1
      = Response.okApp (some (applyUpdate now (adminUpdateData adm now parsed ex) ex)) := by
  unfold patchAdminApplication
  simp only [hp, hg]
  rw [updateApplication_fst, hg]
  rfl

theorem parse_status_of_mem (b : RawPatchBody) (s : String) (hs : b.status = some s)
    (henum : s ∈ statusEnum) :
    updateApplicationSchemaParse b
      = some { status := some s, adminNotes := b.adminNotes } := by
  have hc : statusEnum.contains s = true := by
    fin_cases henum <;> rfl
  unfold updateApplicationSchemaParse
  simp only [hs]
  rw [if_pos hc]

theorem statusEnum_ne_empty (s : String) (henum : s ∈ statusEnum) : s ≠ "" := by
  fin_cases henum <;> decide

/-- JS `s.includes("")` is always true. -/
theorem containsSub_nil (l : List Char) : containsSub [] l = true := by
  cases l <;> simp [containsSub, startsWithList, List.isEmpty]

/-- With an empty search query every dashboard row matches the search. -/
theorem matchesSearch_empty (r : ApplicationWithUser) : matchesSearch "" r = true := by
  unfold matchesSearch
  have h1 : strIncludes (jsToLower r.app.reason) (jsToLower "") = true := containsSub_nil _
  rw [h1, Bool.true_or, Bool.true_or]

/-! ## Claims -/

/-- C1 (counterexample): the claimed invariant "status == paid iff
paidAt and paidAmount are non-null" fails on a reachable state: after
create, mark paid, then write "approved" over the paid application, the
application has status "approved" with paidAt and paidAmount still
non-null (the endpoint never clears them). -/
theorem C1_counterexample :
    ¬ (∀ a ∈ (runOps C1ops).applications,
        (a.status = "paid" ↔ (a.paidAt ≠ none ∧ a.paidAmount ≠ none))) := by
  decide

/-- C1 (amended): for every application state reachable through the API
operations, status == "paid" implies paidAt and paidAmount are
non-null.  (The converse direction of the claimed iff is refuted by
`C1_counterexample`.) -/
theorem C1_amended_paid_implies_payout (ops : List Op) :
    ∀ a ∈ (runOps ops).applications,
      a.status = "paid" → a.paidAt.isSome ∧ a.paidAmount.isSome := by
  have h0 : ∀ a ∈ emptyDB.applications,
      a.status = "paid" → a.paidAt.isSome ∧ a.paidAmount.isSome := by
    intro a ha
    simp [emptyDB] at ha
  exact foldl_inv _ step_PaidInv ops emptyDB h0

/-- C1 (witness): the amended theorem applied to the concrete trace
create-then-mark-paid, whose resulting application is `C1paidApp`. -/
theorem C1_witness : C1paidApp.paidAt.isSome ∧ C1paidApp.paidAmount.isSome :=
  C1_amended_paid_implies_payout C1wops C1paidApp (by decide) (by decide)

/-- C2 (counterexample): the claimed invariant "status != pending iff
reviewedBy and reviewedAt are non-null" fails on a reachable state: an
adminNotes-only PATCH stamps reviewedBy/reviewedAt while the status
stays "pending". -/
theorem C2_counterexample :
    ¬ (∀ a ∈ (runOps C2ops).applications,
        (a.status ≠ "pending" ↔ (a.reviewedBy ≠ none ∧ a.reviewedAt ≠ none))) := by
  decide

/-- C2 (amended): for every application state reachable through the API
operations, status != "pending" implies reviewedBy and reviewedAt are
non-null.  (The converse direction of the claimed iff is refuted by
`C2_counterexample`.) -/
theorem C2_amended_nonpending_implies_reviewed (ops : List Op) :
    ∀ a ∈ (runOps ops).applications,
      a.status ≠ "pending" → a.reviewedBy.isSome ∧ a.reviewedAt.isSome := by
  have h0 : ∀ a ∈ emptyDB.applications,
      a.status ≠ "pending" → a.reviewedBy.isSome ∧ a.reviewedAt.isSome := by
    intro a ha
    simp [emptyDB] at ha
  exact foldl_inv _ step_ReviewInv ops emptyDB h0

/-- C2 (witness): the amended theorem applied to the concrete trace
create-then-approve, whose resulting application is `C2approvedApp`. -/
theorem C2_witness : C2approvedApp.reviewedBy.isSome ∧ C2approvedApp.reviewedAt.isSome :=
  C2_amended_nonpending_implies_reviewed C2wops C2approvedApp (by decide) (by decide)

/-- C3 (counterexample): (paid → pending) is not a row of the §4.1
table, yet the admin-update endpoint writes the requested status and
does not reject: there is no InvalidTransition condition. -/
theorem C3_counterexample :
    specAllowedTransition "paid" "pending" = false ∧
    (patchAdminApplication "adm" "a1" C3body 2 C3db).2.applications.map
        (fun a => a.status) = ["pending"] ∧
    (patchAdminApplication "adm" "a1" C3body 2 C3db).1 ≠ Response.badRequest := by
  decide

/-- C3 (amended): the admin-update endpoint does not enforce the §4.1
transition table: for every existing application and every requested
status belonging to the status enum, the endpoint answers 200 with the
requested status written, regardless of the current status. -/
theorem C3_amended_any_enum_status_written (adminId id : String) (body : RawPatchBody)
    (now : Nat) (db : DB) (app : Application) (s : String)
    (happ : getApplicationById db id = some app)
    (hs : body.status = some s) (henum : s ∈ statusEnum) :
    ∃ a', (patchAdminApplication adminId id body now db).1
        = Response.okApp (some a') ∧ a'.status = s := by
  have hne : s ≠ "" := statusEnum_ne_empty s henum
  have hp := parse_status_of_mem body s hs henum
  refine ⟨_, patchAdminApplication_fst adminId id body now db _ app hp happ, ?_⟩
  simp [applyUpdate, adminUpdateData, hne]

/-- C3 (witness): the amended theorem applied to the concrete
(paid → pending) request of `C3_counterexample`. -/
theorem C3_witness :
    ∃ a', (patchAdminApplication "adm" "a1" C3body 2 C3db).1
        = Response.okApp (some a') ∧ a'.status = "pending" :=
  C3_amended_any_enum_status_written "adm" "a1" C3body 2 C3db C3paidApp "pending"
    (by decide) rfl (by decide)

/-- C4: for every existing application, a PATCH with status == "paid"
answers with paidAt set to the transition time and paidAmount
snapshotted from the application's current amountRequested; the body is
arbitrary (in particular any request-supplied paidAmount/paidAt is
stripped by the schema parse and cannot influence the result). -/
theorem C4_paid_snapshots_amount (adminId id : String) (body : RawPatchBody) (now : Nat)
    (db : DB) (app : Application)
    (happ : getApplicationById db id = some app)
    (hs : body.status = some "paid") :
    ∃ a', (patchAdminApplication adminId id body now db).1
        = Response.okApp (some a')
      ∧ a'.status = "paid" ∧ a'.paidAt = some now
      ∧ a'.paidAmount = some app.amountRequested := by
  have hp := parse_status_of_mem body "paid" hs (by simp [statusEnum])
  refine ⟨_, patchAdminApplication_fst adminId id body now db _ app hp happ, ?_, ?_, ?_⟩
  · simp [applyUpdate, adminUpdateData]
  · simp [applyUpdate, adminUpdateData]
  · simp [applyUpdate, adminUpdateData]

/-- C4 (witness): marking the approved 250.00 GBP application paid at
time 7, with a request body smuggling paidAmount 999.99, yields
paidAmount "250.00" and paidAt 7. -/
theorem C4_witness :
    ∃ a', (patchAdminApplication "adm" "a1" C4body 7 C4db).1
        = Response.okApp (some a')
      ∧ a'.status = "paid" ∧ a'.paidAt = some 7
      ∧ a'.paidAmount = some "250.00" :=
  C4_paid_snapshots_amount "adm" "a1" C4body 7 C4db C4app (by decide) rfl

/-- C5: every application returned by a successful
POST /api/applications has status "pending", for every request body —
in particular any status field in the body is stripped by the schema
parse and cannot produce another initial status. -/
theorem C5_created_status_pending (userId : String) (body : SubmitBody) (nb na : String)
    (now : Nat) (db : DB) (a : Application)
    (h : (postApplications userId body nb na now db).1 = Response.okApp (some a)) :
    a.status = "pending" := by
  rcases hp : applicationSubmitSchemaParse body with _ | ⟨appData, bankData⟩
  · unfold postApplications at h
    simp only [hp] at h
    exact Response.noConfusion h
  · rcases hr : resolveBankDetailsId userId appData bankData nb now db with _ | ⟨x, db1⟩
    · unfold postApplications at h
      simp only [hp, hr] at h
      exact Response.noConfusion h
    · unfold postApplications at h
      simp only [hp, hr, createApplication, Response.okApp.injEq, Option.some.injEq] at h
      rw [← h]

/-- C5 (witness): a creation request smuggling `status: "approved"`
still creates `C5app`, whose status is "pending". -/
theorem C5_witness : C5app.status = "pending" :=
  C5_created_status_pending "u1" C5body "b1" "a1" 0 emptyDB C5app (by decide)

/-- C6 (counterexample): a POST /api/bank-details with country "UK" and
no sortCode is NOT rejected before persistence: the server-side schema
has no country-conditional requirement, so a row with sortCode null is
created and the response is not a validation error. -/
theorem C6_counterexample :
    (postBankDetails "u1" C6body "b1" 0 emptyDB).2.bankDetails.map
        (fun b => b.sortCode) = [none]
    ∧ (postBankDetails "u1" C6body "b1" 0 emptyDB).1 ≠ Response.badRequest := by
  decide

/-- C6 (amended): the rejection happens only in the client intake
form's validation: the apply-page bankDetailsSchema refuses every form
with country "UK" whose sortCode is absent or shorter than 6
characters.  (The server boundary accepts and persists such a payload,
per `C6_counterexample`.) -/
theorem C6_amended_client_rejects_uk_without_sortcode (f : ClientBankForm)
    (hc : f.country = "UK")
    (hs : ∀ s, f.sortCode = some s → s.length < 6) :
    clientBankSchemaOk f = false := by
  have hr : clientBankRefineOk f = false := by
    unfold clientBankRefineOk
    rw [if_pos hc]
    rcases hsc : f.sortCode with _ | s
    · rfl
    · have := hs s hsc
      simp only [Bool.and_eq_false_iff]
      right
      simpa using this
  unfold clientBankSchemaOk
  rw [hr, Bool.and_false]

/-- C6 (witness): the amended theorem applied to a concrete UK form
with no sortCode. -/
theorem C6_witness :
    clientBankSchemaOk
        { country := "UK", bankName := "Barclays", accountNumber := "12345678",
          sortCode := none, routingNumber := none } = false :=
  C6_amended_client_rejects_uk_without_sortcode _ rfl (fun _ h => nomatch h)

/-- C7: DELETE /api/bank-details/:id answers 404 when no row has the
id, answers 403 without touching the state when the row belongs to
someone else, and in every case a row owned by another user survives
the operation. -/
theorem C7_delete_ownership (callerId id : String) (db : DB) :
    (getBankDetailsById db id = none →
      deleteBankDetailsRoute callerId id db = (Response.notFound, db)) ∧
    (∀ b, getBankDetailsById db id = some b → b.userId ≠ callerId →
      deleteBankDetailsRoute callerId id db = (Response.forbidden, db)) ∧
    (∀ b ∈ db.bankDetails, b.userId ≠ callerId →
      b ∈ (deleteBankDetailsRoute callerId id db).2.bankDetails) := by
  refine ⟨?_, ?_, ?_⟩
  · intro h
    unfold deleteBankDetailsRoute
    simp only [h]
  · intro b hb hne
    unfold deleteBankDetailsRoute
    simp only [hb]
    rw [if_pos hne]
  · intro b hb hne
    unfold deleteBankDetailsRoute
    rcases hl : getBankDetailsById db id with _ | ex
    · simp only [hl]
      exact hb
    · simp only [hl]
      by_cases ho : ex.userId ≠ callerId
      · rw [if_pos ho]
        exact hb
      · rw [if_neg ho]
        unfold deleteBankDetails
        refine List.mem_filter.mpr ⟨hb, ?_⟩
        simp only [Bool.not_eq_true']
        simp [hne]

/-- C7 (witness): deleting `C7bd` (owned by "A") while authenticated as
"B" answers 403 and leaves the state unchanged. -/
theorem C7_witness : deleteBankDetailsRoute "B" "bd1" C7db = (Response.forbidden, C7db) :=
  (C7_delete_ownership "B" "bd1" C7db).2.1 C7bd (by decide) (by decide)

/-- C8: with statusFilter "approved" and an empty search query the
dashboard filter returns exactly the rows whose status equals
"approved" (paid rows are excluded), while the stats card's approved
counter counts rows whose status is "approved" or "paid" — two distinct
aggregations. -/
theorem C8_filter_vs_stats (rows : List ApplicationWithUser) :
    filteredApplications "" "approved" rows
      = rows.filter (fun r => r.app.status == "approved") ∧
    (adminStats rows).approved
      = (rows.filter (fun r =>
          r.app.status == "approved" || r.app.status == "paid")).length := by
  constructor
  · unfold filteredApplications
    apply List.filter_congr
    intro r _
    rw [matchesSearch_empty r, Bool.true_and]
    rfl
  · rfl

/-- C9: every call to `updateApplication` acts row-wise through
`applyUpdate`, and `applyUpdate` leaves id, userId, reason,
amountRequested, currency, bankDetailsId, supportingDocuments and
createdAt unchanged — only status, adminNotes, reviewedBy, reviewedAt,
paidAt, paidAmount and updatedAt can be modified. -/
theorem C9_update_frame (db : DB) (id : String) (data : ApplicationUpdate) (now : Nat) :
    (updateApplication db id data now).2.applications
      = db.applications.map (fun a => if a.id == id then applyUpdate now data a else a)
    ∧ ∀ a : Application,
        (applyUpdate now data a).id = a.id
      ∧ (applyUpdate now data a).userId = a.userId
      ∧ (applyUpdate now data a).reason = a.reason
      ∧ (applyUpdate now data a).amountRequested = a.amountRequested
      ∧ (applyUpdate now data a).currency = a.currency
      ∧ (applyUpdate now data a).bankDetailsId = a.bankDetailsId
      ∧ (applyUpdate now data a).supportingDocuments = a.supportingDocuments
      ∧ (applyUpdate now data a).createdAt = a.createdAt :=
  ⟨rfl, fun _ => ⟨rfl, rfl, rfl, rfl, rfl, rfl, rfl, rfl⟩⟩

/-- C10: a POST /api/applications with no new bank-details payload
whose referenced bankDetailsId is missing or owned by another user
answers 403 and leaves the state unchanged: no application row and no
bank-details row is created. -/
theorem C10_invalid_bankref_forbidden (userId : String) (body : SubmitBody)
    (nb na : String) (now : Nat) (db : DB) (appData : ApplicationData) (bid : String)
    (hparse : applicationSubmitSchemaParse body = some (appData, none))
    (hbid : appData.bankDetailsId = some bid) (hbe : bid ≠ "")
    (hbad : ∀ b, getBankDetailsById db bid = some b → b.userId ≠ userId) :
    postApplications userId body nb na now db = (Response.forbidden, db) := by
  have hres : resolveBankDetailsId userId appData none nb now db = none := by
    unfold resolveBankDetailsId
    simp only [hbid]
    rw [if_neg hbe]
    split
    · rfl
    · next b hl => rw [if_neg (hbad b hl)]
  unfold postApplications
  simp only [hparse, hres]

/-- C10 (witness): referencing `C10bd` (owned by "other") while
authenticated as "u1" answers 403 and leaves the state unchanged. -/
theorem C10_witness :
    postApplications "u1" C10body "b1" "a1" 0 C10db = (Response.forbidden, C10db) :=
  C10_invalid_bankref_forbidden "u1" C10body "b1" "a1" 0 C10db C10appData "bd9"
    (by decide) rfl (by decide)
    (fun b hb => by
      have hb2 : some C10bd = some b := by rw [← hb]; rfl
      cases Option.some.inj hb2
      decide)

end Charity
